import Mathlib

/-!
Shallow embedding of the bloc_infinity_list Windows plugin shim:
`src/windows/bloc_infinity_list_plugin.h` and
`src/windows/bloc_infinity_list_plugin_c_api.cpp`.

The repository snapshot contains only the class header and the C-linkage
entry point; the implementation file `bloc_infinity_list_plugin.cpp` with
the bodies of `HandleMethodCall` and `RegisterWithRegistrar` is absent, so
those two bodies are modelled from the specification (their doc comments
say so explicitly).  Everything else is translated from the source files.
-/

/-- flutter::EncodableValue — the opaque framework-encoded payload carried by
method-call arguments and result values.  Only its existence matters to the
shim; it is modelled minimally. -/
inductive EncodableValue
  | null
  | str (s : String)
  | intVal (n : Int)
deriving DecidableEq

/-- flutter::MethodCall with EncodableValue arguments: a method name plus an
opaque optional argument payload. -/
structure MethodCall where
  method_name : String
  arguments : Option EncodableValue
deriving DecidableEq

/-- The three terminal operations available on a flutter::MethodResult sink:
Success (with an optional reply value), Error (code, message, optional
details), and NotImplemented. -/
inductive ResultInvocation
  | success (value : Option EncodableValue)
  | error (code message : String) (details : Option EncodableValue)
  | notImplemented
deriving DecidableEq

/-- A C++ exception that could propagate out of a handler body. -/
structure CppException where
  what : String
deriving DecidableEq

/-- The plugin class `bloc_infinity_list::BlocInfinityListPlugin`
(bloc_infinity_list_plugin.h, lines 11-27).  The class declares no data
members, so the instance state is empty. -/
structure BlocInfinityListPlugin deriving DecidableEq

/-- Modelled from the spec: the body of
`BlocInfinityListPlugin::HandleMethodCall` lives in the implementation file
`bloc_infinity_list_plugin.cpp`, which is not in the repository snapshot (the
header only declares the method).  The spec states "the handler body is
empty".  The embedding returns the instance after the call together with the
list of terminal operations invoked on the result sink, inside `Except` to
record a C++ exception escaping the body; the empty body invokes nothing on
the sink, changes nothing and throws nothing. -/
def BlocInfinityListPlugin.HandleMethodCall (plugin : BlocInfinityListPlugin)
    (_method_call : MethodCall) :
    Except CppException (BlocInfinityListPlugin × List ResultInvocation) :=
  Except.ok (plugin, [])

/-- A method channel as observed by the shim: the channel name it was bound
to and the call handler installed on it via SetMethodCallHandler. -/
structure Channel where
  name : String
  handler : MethodCall → Except CppException (BlocInfinityListPlugin × List ResultInvocation)

/-- flutter::PluginRegistrarWindows, as observed by the shim: the channels
whose handlers were installed through its messenger, and the plugin
instances whose ownership was transferred to it via AddPlugin (so their
lifetime matches the registrar's). -/
structure Registrar where
  channels : List Channel
  plugins : List BlocInfinityListPlugin

/-- The fixed channel name under which the plugin is addressed. -/
def channel_name : String := "bloc_infinity_list"

/-- Modelled from the spec: the body of
`BlocInfinityListPlugin::RegisterWithRegistrar` lives in the missing
`bloc_infinity_list_plugin.cpp`.  Per the spec it constructs a channel bound
to the fixed name on the registrar's messaging substrate, constructs one
shim instance, installs a callback on the channel forwarding every incoming
call to that instance's HandleMethodCall, and transfers ownership of the
instance to the registrar. -/
def BlocInfinityListPlugin.RegisterWithRegistrar (registrar : Registrar) : Registrar :=
  let plugin : BlocInfinityListPlugin := BlocInfinityListPlugin.mk
  let channel : Channel :=
    { name := channel_name,
      handler := fun method_call => plugin.HandleMethodCall method_call }
  { channels := channel :: registrar.channels,
    plugins := plugin :: registrar.plugins }

/-- FlutterDesktopPluginRegistrarRef: the opaque registrar reference handed
to the C-linkage entry point by the host loader. -/
structure FlutterDesktopPluginRegistrarRef where
  handle : Nat
deriving DecidableEq

/-- `bloc_infinity_list_plugin_c_api.cpp`, lines 7-12: the C-linkage entry
point delegates to `BlocInfinityListPlugin::RegisterWithRegistrar` with the
Windows registrar obtained from the registrar manager for the given opaque
reference.  `GetRegistrar` stands for
PluginRegistrarManager::GetInstance()->GetRegistrar applied to the
reference. -/
def BlocInfinityListPluginCApiRegisterWithRegistrar
    (GetRegistrar : FlutterDesktopPluginRegistrarRef → Registrar)
    (registrar : FlutterDesktopPluginRegistrarRef) : Registrar :=
  BlocInfinityListPlugin.RegisterWithRegistrar (GetRegistrar registrar)

/-- The framework delivers incoming calls serially on the platform thread:
fold HandleMethodCall over a list of calls, threading the instance state and
collecting each call's sink invocations; a thrown exception aborts the
dispatch loop. -/
def handleCalls :
    BlocInfinityListPlugin → List MethodCall →
    Except CppException (BlocInfinityListPlugin × List (List ResultInvocation))
  | plugin, [] => Except.ok (plugin, [])
  | plugin, c :: cs => do
    let r ← plugin.HandleMethodCall c
    let s ← handleCalls r.1 cs
    Except.ok (s.1, r.2 :: s.2)

/-- The C++ special member functions of the plugin class that its header
takes a position on. -/
inductive CppSpecialMember
  | defaultConstructor
  | destructor
  | copyConstructor
  | copyAssignment
deriving DecidableEq

/-- The special members declared deleted in bloc_infinity_list_plugin.h,
lines 20-21: the copy constructor and the copy assignment operator. -/
def deletedSpecialMembers : List CppSpecialMember :=
  [CppSpecialMember.copyConstructor, CppSpecialMember.copyAssignment]

/-- C1: for every method call received, HandleMethodCall invokes no terminal
operation on the result sink — the handler returns with an empty invocation
list, so the pending call is never resolved and the application layer
observes an indefinite hang. -/
theorem C1_handler_invokes_nothing (p : BlocInfinityListPlugin) (c : MethodCall) :
    p.HandleMethodCall c = Except.ok (p, ([] : List ResultInvocation)) :=
  rfl

/-- C2: the contract "the result sink is invoked exactly once" fails on the
code: on the concrete call "ping" the handler performs zero sink
invocations, not one. -/
theorem C2_sink_invoked_zero_times :
    (BlocInfinityListPlugin.mk.HandleMethodCall
        { method_name := "ping", arguments := none }).map
      (fun r => r.2.length) = Except.ok 0 :=
  rfl

/-- C3: on the unrecognized method "doesNotExist" the sink never receives
the "not implemented" outcome: the handler performs no sink invocation at
all, so the call hangs instead. -/
theorem C3_doesNotExist_never_reported :
    (BlocInfinityListPlugin.mk.HandleMethodCall
        { method_name := "doesNotExist", arguments := none }).map Prod.snd
      = Except.ok ([] : List ResultInvocation) :=
  rfl

/-- C4: registration creates exactly one new channel, bound to the fixed
channel name, constructs and registers exactly one shim instance whose
HandleMethodCall receives every incoming call on that channel, and
transfers ownership of the instance to the registrar. -/
theorem C4_registration (r : Registrar) :
    ∃ ch plugin,
      (BlocInfinityListPlugin.RegisterWithRegistrar r).channels = ch :: r.channels ∧
      (BlocInfinityListPlugin.RegisterWithRegistrar r).plugins = plugin :: r.plugins ∧
      ch.name = channel_name ∧
      ch.handler = fun method_call => plugin.HandleMethodCall method_call :=
  ⟨_, _, rfl, rfl, rfl, rfl⟩

/-- C5: the C-linkage entry point's only behavior is to delegate to the
shim's registration operation with the Windows registrar obtained from the
registrar manager for the opaque reference; it is total, so given a valid
reference it cannot fail. -/
theorem C5_capi_delegates
    (GetRegistrar : FlutterDesktopPluginRegistrarRef → Registrar)
    (ref : FlutterDesktopPluginRegistrarRef) :
    BlocInfinityListPluginCApiRegisterWithRegistrar GetRegistrar ref
      = BlocInfinityListPlugin.RegisterWithRegistrar (GetRegistrar ref) :=
  rfl

/-- C6: after registering under channel name "bloc_infinity_list", invoking
"ping" with no arguments does not yield a success reply: the installed
handler performs no sink invocation at all, so the call never completes. -/
theorem C6_ping_no_success_reply :
    ∃ ch,
      (BlocInfinityListPlugin.RegisterWithRegistrar
          { channels := [], plugins := [] }).channels = [ch] ∧
      ch.name = "bloc_infinity_list" ∧
      (ch.handler { method_name := "ping", arguments := none }).map Prod.snd
        = Except.ok ([] : List ResultInvocation) :=
  ⟨_, rfl, rfl, rfl⟩

/-- C7: the handler does not inspect the method name: for any two incoming
method calls, whatever their names or arguments, the observable behavior on
the result sink (and on the instance) is identical. -/
theorem C7_method_name_irrelevant (p : BlocInfinityListPlugin) (c1 c2 : MethodCall) :
    p.HandleMethodCall c1 = p.HandleMethodCall c2 :=
  rfl

/-- C8: each call is handled independently and statelessly: any serially
delivered history of calls leaves the shim instance unchanged, and the
outcome of a further call after that history equals the outcome of handling
it on the initial instance. -/
theorem C8_stateless (p q : BlocInfinityListPlugin) (cs : List MethodCall)
    (outs : List (List ResultInvocation)) (c : MethodCall)
    (h : handleCalls p cs = Except.ok (q, outs)) :
    q = p ∧ q.HandleMethodCall c = p.HandleMethodCall c := by
  cases p
  cases q
  exact ⟨rfl, rfl⟩

/-- Witness for C8 at a concrete history and call. -/
theorem C8_stateless_witness :
    handleCalls BlocInfinityListPlugin.mk
        [{ method_name := "a", arguments := none }]
      = Except.ok (BlocInfinityListPlugin.mk, [[]]) ∧
    (BlocInfinityListPlugin.mk = BlocInfinityListPlugin.mk ∧
      BlocInfinityListPlugin.mk.HandleMethodCall
          { method_name := "b", arguments := none }
        = BlocInfinityListPlugin.mk.HandleMethodCall
          { method_name := "b", arguments := none }) :=
  ⟨rfl,
    C8_stateless BlocInfinityListPlugin.mk BlocInfinityListPlugin.mk
      [{ method_name := "a", arguments := none }] [[]]
      { method_name := "b", arguments := none } rfl⟩

/-- C9: the plugin class's copy constructor and copy assignment operator are
deleted, so an existing instance can never be duplicated; and a registration
performed on a registrar holding no shim instance leaves at most one shim
instance registered on it. -/
theorem C9_no_copy_single_instance (r : Registrar) (h : r.plugins.length = 0) :
    CppSpecialMember.copyConstructor ∈ deletedSpecialMembers ∧
    CppSpecialMember.copyAssignment ∈ deletedSpecialMembers ∧
    (BlocInfinityListPlugin.RegisterWithRegistrar r).plugins.length ≤ 1 := by
  refine ⟨by decide, by decide, ?_⟩
  simp [BlocInfinityListPlugin.RegisterWithRegistrar, h]

/-- Witness for C9 at a concrete fresh registrar. -/
theorem C9_no_copy_single_instance_witness :
    ({ channels := [], plugins := [] } : Registrar).plugins.length = 0 ∧
    (CppSpecialMember.copyConstructor ∈ deletedSpecialMembers ∧
      CppSpecialMember.copyAssignment ∈ deletedSpecialMembers ∧
      (BlocInfinityListPlugin.RegisterWithRegistrar
          { channels := [], plugins := [] }).plugins.length ≤ 1) :=
  ⟨rfl, C9_no_copy_single_instance { channels := [], plugins := [] } rfl⟩

/-- C10: no C++ exception raised while servicing a call escapes
HandleMethodCall into the framework's dispatch loop: every call returns
normally, and every invocation the handler performs on the sink is one of
the three terminal outcomes. -/
theorem C10_no_exception_escapes (p : BlocInfinityListPlugin) (c : MethodCall) :
    ∃ out, p.HandleMethodCall c = Except.ok out ∧
      ∀ inv ∈ out.2,
        (∃ v, inv = ResultInvocation.success v) ∨
        (∃ code msg d, inv = ResultInvocation.error code msg d) ∨
        inv = ResultInvocation.notImplemented :=
  ⟨(p, []), rfl, by simp⟩
